import Mathlib

/-!
Verification development for the `passport-atlassian-oauth-stash` adapter
(`lib/passport-atlassian-oauth/strategy.js`).

The development shallowly embeds the JavaScript source:

* JavaScript values that the adapter manipulates are modelled by `JsValue`;
  a JavaScript object is its ordered list of own properties (`JsObj`),
  property read/write being `getF`/`setF`.
* `JSON.parse` (an ECMAScript builtin used by the source) is modelled by
  `JSON_parse`, a fuel-based recursive-descent parser for the JSON grammar.
* The `Strategy` constructor (strategy.js lines 44-57) is modelled by
  `Strategy`; a thrown exception is modelled by `Except.error`.
* `Strategy.prototype.userProfile` (strategy.js lines 82-123) is modelled by
  `userProfile`, which returns a `Trace` recording the HTTP requests
  dispatched through `_performSecureRequest`, the invocations of the `done`
  callback, and any exception that escaped to the event loop uncaught.
-/

/-- Model of a JavaScript value, as needed by the adapter: `undefined`,
`null`, booleans, numbers (kept as their JSON lexeme, since the adapter
never computes with numbers), strings, arrays and plain objects (ordered
own-property lists). -/
inductive JsValue where
  | undefined
  | null
  | bool (b : Bool)
  | num (lexeme : String)
  | str (s : String)
  | arr (elems : List JsValue)
  | obj (fields : List (String × JsValue))

/-- A JavaScript object: its ordered list of own properties. -/
abbrev JsObj := List (String × JsValue)

/-- Property read `o[k]`: the first binding of `k`, or `undefined` when the
object has no such property. -/
def getF : JsObj → String → JsValue
  | [], _ => JsValue.undefined
  | (k1, v) :: rest, k => if k1 = k then v else getF rest k

/-- Property write `o[k] = v`: overwrites the existing binding of `k`, or
appends a new one (JavaScript assignment on the same object). -/
def setF : JsObj → String → JsValue → JsObj
  | [], k, v => [(k, v)]
  | (k1, v1) :: rest, k, v =>
    if k1 = k then (k, v) :: rest else (k1, v1) :: setF rest k v

/-- Auxiliary for JavaScript truthiness of numbers: a JSON number lexeme
denotes zero exactly when its mantissa (the part before any exponent)
contains only `0`, `.` and `-`. -/
def numLexIsZero (s : String) : Bool :=
  (s.data.takeWhile (fun c => !(c == 'e') && !(c == 'E'))).all
    (fun c => c == '0' || c == '.' || c == '-')

/-- Model of JavaScript truthiness (`!x` in the source negates this):
`undefined`, `null`, `false`, `0` and `""` are falsy; everything else,
including any array or object, is truthy. -/
def truthy : JsValue → Bool
  | JsValue.undefined => false
  | JsValue.null => false
  | JsValue.bool b => b
  | JsValue.num s => !(numLexIsZero s)
  | JsValue.str s => !(s == "")
  | JsValue.arr _ => true
  | JsValue.obj _ => true

/-- Fuel-based model of JavaScript string coercion (`ToString`), as used by
the `+` operator in the source's URL derivations.  The fuel only bounds the
recursion depth through arrays; every value the adapter actually coerces is
a plain string. -/
def toJsStringF : Nat → JsValue → String
  | 0, _ => ""
  | fuel + 1, v =>
    match v with
    | JsValue.undefined => "undefined"
    | JsValue.null => "null"
    | JsValue.bool true => "true"
    | JsValue.bool false => "false"
    | JsValue.num s => s
    | JsValue.str s => s
    | JsValue.arr xs => String.intercalate "," (xs.map (toJsStringF fuel))
    | JsValue.obj _ => "[object Object]"

/-- Model of JavaScript string coercion.  The fixed fuel bounds only the
nesting depth of arrays; every value the adapter coerces is a plain string,
coerced at any positive fuel. -/
def toJsString (v : JsValue) : String := toJsStringF 1000 v

/-- Member access `v.k` on a parsed JSON value: the property's value on an
object, `undefined` on a missing property or a non-object primitive.
(JavaScript member access on `null` throws a `TypeError`; the one place the
source performs member access on a parsed value, `userProfile` below, models
that case separately.) -/
def JsValue.getField : JsValue → String → JsValue
  | JsValue.obj fs, k => getF fs k
  | _, _ => JsValue.undefined

/-- Model of a JavaScript exception value, as needed by the adapter. -/
inductive JsErr where
  /-- A plain `new Error(message)`. -/
  | error (message : String)
  /-- The `SyntaxError` thrown by `JSON.parse` on invalid input. -/
  | parseErr (message : String)
  /-- A `TypeError` (member access on `null`). -/
  | typeErr (message : String)
  /-- `new InternalOAuthError(message, cause)` from `passport-oauth`,
  wrapping an underlying transport/signing failure. -/
  | internalOAuthError (message : String) (cause : JsErr)

/- Characters that the layout rules of this development spell via their code
points. -/

/-- The double-quote character. -/
def quoteChar : Char := Char.ofNat 34

/-- The backslash character. -/
def backslashChar : Char := Char.ofNat 92

/-- The opening-brace character. -/
def lbraceChar : Char := Char.ofNat 123

/-- The closing-brace character. -/
def rbraceChar : Char := Char.ofNat 125

/-- JSON insignificant whitespace. -/
def isJsonWs (c : Char) : Bool :=
  c == ' ' || c == '\t' || c == '\n' || c == '\r'

/-- Drop leading JSON whitespace. -/
def skipWs : List Char → List Char
  | [] => []
  | c :: cs => if isJsonWs c then skipWs cs else c :: cs

/-- Value of a hexadecimal digit. -/
def hexVal (c : Char) : Option Nat :=
  if c.isDigit then some (c.toNat - 48)
  else if 'a' ≤ c ∧ c ≤ 'f' then some (c.toNat - 87)
  else if 'A' ≤ c ∧ c ≤ 'F' then some (c.toNat - 55)
  else none

/-- Parse the rest of a JSON string (the opening quote already consumed),
handling the JSON escape sequences.  `acc` holds the parsed characters in
reverse.  The fuel is always at least the input length. -/
def parseStrF : Nat → List Char → List Char → Option (String × List Char)
  | 0, _, _ => none
  | _ + 1, _, [] => none
  | fuel + 1, acc, c :: cs =>
    if c = quoteChar then some (String.mk acc.reverse, cs)
    else if c = backslashChar then
      match cs with
      | [] => none
      | e :: cs2 =>
        if e = quoteChar then parseStrF fuel (quoteChar :: acc) cs2
        else if e = backslashChar then parseStrF fuel (backslashChar :: acc) cs2
        else if e = '/' then parseStrF fuel ('/' :: acc) cs2
        else if e = 'b' then parseStrF fuel (Char.ofNat 8 :: acc) cs2
        else if e = 'f' then parseStrF fuel (Char.ofNat 12 :: acc) cs2
        else if e = 'n' then parseStrF fuel ('\n' :: acc) cs2
        else if e = 'r' then parseStrF fuel ('\r' :: acc) cs2
        else if e = 't' then parseStrF fuel ('\t' :: acc) cs2
        else if e = 'u' then
          match cs2 with
          | a :: b :: c3 :: d :: cs3 =>
            match hexVal a, hexVal b, hexVal c3, hexVal d with
            | some ha, some hb, some hc, some hd =>
              parseStrF fuel (Char.ofNat (((ha * 16 + hb) * 16 + hc) * 16 + hd) :: acc) cs3
            | _, _, _, _ => none
          | _ => none
        else none
    else if c.toNat < 32 then none
    else parseStrF fuel (c :: acc) cs

/-- Split off a leading run of decimal digits. -/
def digitsSpan (cs : List Char) : List Char × List Char :=
  (cs.takeWhile (fun c => c.isDigit), cs.dropWhile (fun c => c.isDigit))

/-- Parse the optional fraction part of a JSON number, returning its lexeme. -/
def parseFracPart : List Char → Option (String × List Char)
  | '.' :: t =>
    match digitsSpan t with
    | ([], _) => none
    | (ds, r) => some ("." ++ String.mk ds, r)
  | cs => some ("", cs)

/-- Parse the optional exponent part of a JSON number, returning its lexeme. -/
def parseExpPart : List Char → Option (String × List Char)
  | [] => some ("", [])
  | c :: t =>
    if c = 'e' ∨ c = 'E' then
      let signAndRest : String × List Char :=
        match t with
        | '+' :: u => ("+", u)
        | '-' :: u => ("-", u)
        | _ => ("", t)
      match digitsSpan signAndRest.2 with
      | ([], _) => none
      | (ds, r) => some (String.mk [c] ++ signAndRest.1 ++ String.mk ds, r)
    else some ("", c :: t)

/-- Parse a JSON number at the head of the input, returning its lexeme.
Enforces the JSON grammar: an optional minus sign, an integer part with no
leading zero, optional fraction and exponent parts. -/
def parseNumF (cs : List Char) : Option (String × List Char) :=
  let signAndRest : String × List Char :=
    match cs with
    | '-' :: t => ("-", t)
    | _ => ("", cs)
  match digitsSpan signAndRest.2 with
  | ([], _) => none
  | (ds, rest) =>
    if 1 < ds.length ∧ ds.head? = some '0' then none
    else
      match parseFracPart rest with
      | none => none
      | some (fp, rest2) =>
        match parseExpPart rest2 with
        | none => none
        | some (ep, rest3) => some (signAndRest.1 ++ String.mk ds ++ fp ++ ep, rest3)

/-- Strip an expected literal tail (used for `true`, `false`, `null`). -/
def stripLit : List Char → List Char → Option (List Char)
  | [], cs => some cs
  | _ :: _, [] => none
  | p :: ps, c :: cs => if c = p then stripLit ps cs else none

mutual

/-- Parse a JSON value.  The fuel strictly decreases on every mutual
recursive call and every unit of fuel spent consumes at least one input
character, so `2 * length + 2` fuel at top level is always sufficient. -/
def parseValueF : Nat → List Char → Option (JsValue × List Char)
  | 0, _ => none
  | fuel + 1, cs =>
    match skipWs cs with
    | [] => none
    | c :: rest =>
      if c = lbraceChar then parseObjF fuel rest
      else if c = '[' then parseArrF fuel rest
      else if c = quoteChar then
        (parseStrF (rest.length + 1) [] rest).map
          (fun sr => (JsValue.str sr.1, sr.2))
      else if c = 't' then
        (stripLit ['r', 'u', 'e'] rest).map (fun r => (JsValue.bool true, r))
      else if c = 'f' then
        (stripLit ['a', 'l', 's', 'e'] rest).map (fun r => (JsValue.bool false, r))
      else if c = 'n' then
        (stripLit ['u', 'l', 'l'] rest).map (fun r => (JsValue.null, r))
      else if c = '-' ∨ c.isDigit then
        (parseNumF (c :: rest)).map (fun sr => (JsValue.num sr.1, sr.2))
      else none

/-- Parse the rest of a JSON object (the opening brace already consumed). -/
def parseObjF : Nat → List Char → Option (JsValue × List Char)
  | 0, _ => none
  | fuel + 1, cs =>
    match skipWs cs with
    | [] => none
    | c :: rest =>
      if c = rbraceChar then some (JsValue.obj [], rest)
      else parseMembersF fuel (c :: rest) []

/-- Parse the members of a non-empty JSON object.  Duplicate keys overwrite
earlier ones, as in `JSON.parse`. -/
def parseMembersF : Nat → List Char → List (String × JsValue) →
    Option (JsValue × List Char)
  | 0, _, _ => none
  | fuel + 1, cs, acc =>
    match skipWs cs with
    | [] => none
    | c :: rest =>
      if c = quoteChar then
        match parseStrF (rest.length + 1) [] rest with
        | none => none
        | some (key, rest2) =>
          match skipWs rest2 with
          | ':' :: rest3 =>
            match parseValueF fuel rest3 with
            | none => none
            | some (v, rest4) =>
              match skipWs rest4 with
              | [] => none
              | c2 :: rest5 =>
                if c2 = ',' then parseMembersF fuel rest5 (setF acc key v)
                else if c2 = rbraceChar then
                  some (JsValue.obj (setF acc key v), rest5)
                else none
          | _ => none
      else none

/-- Parse the rest of a JSON array (the opening bracket already consumed). -/
def parseArrF : Nat → List Char → Option (JsValue × List Char)
  | 0, _ => none
  | fuel + 1, cs =>
    match skipWs cs with
    | [] => none
    | c :: rest =>
      if c = ']' then some (JsValue.arr [], rest)
      else parseItemsF fuel (c :: rest) []

/-- Parse the elements of a non-empty JSON array. -/
def parseItemsF : Nat → List Char → List JsValue →
    Option (JsValue × List Char)
  | 0, _, _ => none
  | fuel + 1, cs, acc =>
    match parseValueF fuel cs with
    | none => none
    | some (v, rest) =>
      match skipWs rest with
      | [] => none
      | c :: rest2 =>
        if c = ',' then parseItemsF fuel rest2 (acc ++ [v])
        else if c = ']' then some (JsValue.arr (acc ++ [v]), rest2)
        else none

end

/-- Model of the ECMAScript builtin `JSON.parse`: parses the whole input as
a single JSON value (with optional surrounding whitespace) and throws a
`SyntaxError` otherwise. -/
def JSON_parse (s : String) : Except JsErr JsValue :=
  match parseValueF (2 * s.data.length + 2) s.data with
  | some (v, rest) =>
    if skipWs rest = [] then Except.ok v
    else Except.error (JsErr.parseErr "Unexpected token in JSON")
  | none => Except.error (JsErr.parseErr "Unexpected token in JSON")

/-! ## The Strategy constructor (strategy.js lines 44-57) -/

/-- The message of the error thrown when `applicationURL` is missing. -/
def msgMissingApplicationURL : String :=
  "Atlassian Oauth Strategy requires a applicationURL option"

/-- The message of the error thrown when `callbackURL` is missing. -/
def msgMissingCallbackURL : String :=
  "Atlassian Oauth Strategy requires a callbackURL option"

/-- The spec's `ConfigurationError`: the `Error` the constructor throws for
a missing required option. -/
def isConfigurationError (e : JsErr) : Prop :=
  e = JsErr.error msgMissingApplicationURL ∨ e = JsErr.error msgMissingCallbackURL

/-- One URL-defaulting assignment of the constructor,
`options[k] = options[k] || options.applicationURL + suffix` (strategy.js
lines 48-50): the existing value when truthy, otherwise the derived URL,
written back into the same options object. -/
def deriveURL (o : JsObj) (k suffix : String) : JsObj :=
  setF o k
    (if truthy (getF o k) then getF o k
     else JsValue.str (toJsString (getF o "applicationURL") ++ suffix))

/-- The constructor's four in-place option assignments (strategy.js lines
48-51), in source order, each reading the object as left by the previous
one.  The result is the post-state of the caller's options object. -/
def deriveOptions (o : JsObj) : JsObj :=
  let o1 := deriveURL o "requestTokenURL" "/plugins/servlet/oauth/request-token"
  let o2 := deriveURL o1 "accessTokenURL" "/plugins/servlet/oauth/access-token"
  let o3 := deriveURL o2 "userAuthorizationURL" "/plugins/servlet/oauth/authorize"
  setF o3 "signatureMethod"
    (if truthy (getF o3 "signatureMethod") then getF o3 "signatureMethod"
     else JsValue.str "RSA-SHA1")

/-- The observable state of a constructed strategy.  `options` is the
post-state of the caller-supplied options object: the constructor mutates
that object in place (JavaScript aliasing) and passes the very same object
to `OAuthStrategy.call`. -/
structure StrategyInstance where
  options : JsObj
  name : String
  applicationURL : JsValue

/-- Model of the `Strategy` constructor (strategy.js lines 44-57).
`Except.error` models a synchronously thrown exception.  The input is
`Option JsObj` so that calling the constructor with `null`/`undefined`
options can be expressed; `Option.getD` models `options = options || {}`. -/
def Strategy (options0 : Option JsObj) : Except JsErr StrategyInstance :=
  let options := options0.getD []
  if truthy (getF options "applicationURL") = false then
    Except.error (JsErr.error msgMissingApplicationURL)
  else if truthy (getF options "callbackURL") = false then
    Except.error (JsErr.error msgMissingCallbackURL)
  else
    let o4 := deriveOptions options
    Except.ok
      { options := o4
        name := "atlassian-oauth"
        applicationURL := getF o4 "applicationURL" }

/-- The effective value of a constructor option after a successful
construction (the value the populated options object hands to the OAuth
engine), `none` when construction fails. -/
def effectiveOption (options0 : Option JsObj) (k : String) : Option JsValue :=
  match Strategy options0 with
  | Except.ok r => some (getF r.options k)
  | Except.error _ => none

/-! ## userProfile (strategy.js lines 82-123) -/

/-- An HTTP request dispatched through `_performSecureRequest`.  The
remaining arguments of every dispatch in the source are fixed
(`null` extra headers, empty body, `"application/json"` content type), so
only the method and URL are recorded. -/
structure Request where
  method : String
  url : String

/-- The behaviour of one `_performSecureRequest` dispatch, chosen by the
environment (the external OAuth transport): either the dispatch returns and
the transport later invokes the callback with `(err, body)` — `err = none`
on HTTP success — or the dispatch itself throws synchronously. -/
inductive DispatchResult where
  | cb (err : Option JsErr) (body : String)
  | throws (e : JsErr)

/-- One invocation of the completion callback `done`: `done(err)` or
`done(null, profile)`. -/
structure DoneCall where
  err : Option JsErr
  profile : Option JsObj

/-- What an invocation of `userProfile` does, observably: the requests
dispatched through `_performSecureRequest`, the invocations of `done`, and
any exception that escaped uncaught to the event loop. -/
structure Trace where
  requests : List Request
  doneCalls : List DoneCall
  uncaught : Option JsErr

/-- The normalized profile object built in the inner response callback
(strategy.js lines 105-117), by successive property assignments on
`{ provider: "atlassian-oauth" }`. -/
def mkProfile (token tokenSecret body : String) (json : JsValue) : JsObj :=
  setF (setF (setF (setF (setF (setF (setF (setF (setF
    [("provider", JsValue.str "atlassian-oauth")]
    "id" (json.getField "name"))
    "username" (json.getField "name"))
    "displayName" (json.getField "displayName"))
    "avatarUrls" (json.getField "slug"))
    "emails" (JsValue.arr [JsValue.obj [("value", json.getField "emailAddress")]]))
    "_raw" (JsValue.str body))
    "_json" json)
    "token" (JsValue.str token))
    "tokenSecret" (JsValue.str tokenSecret)

/-- The body of the response callback of the second (profile) request
(strategy.js lines 101-118).  On a transport error it invokes `done` with an
`InternalOAuthError`; otherwise it runs `JSON.parse(body)`.  The callback is
invoked asynchronously (after the HTTP round trip), so the `try` around the
dispatch no longer guards it: an exception thrown here — the `SyntaxError`
of `JSON.parse` on an invalid body, or the `TypeError` of member access when
the body parses to `null` — escapes uncaught.  Returns the `done`
invocations and the escaped exception, if any. -/
def innerCb (token tokenSecret : String) (err : Option JsErr) (body : String) :
    List DoneCall × Option JsErr :=
  match err with
  | some e =>
    ([{ err := some (JsErr.internalOAuthError "failed to fetch user profile" e)
        profile := none }], none)
  | none =>
    match JSON_parse body with
    | Except.error e => ([], some e)
    | Except.ok JsValue.null =>
      ([], some (JsErr.typeErr "Cannot read properties of null"))
    | Except.ok json =>
      ([{ err := none, profile := some (mkProfile token tokenSecret body json) }],
       none)

/-- Model of `Strategy.prototype.userProfile` (strategy.js lines 82-123).
`applicationURL` is the configured `self._applicationURL`; `step1` and
`step2` are the environment-chosen behaviours of the two
`_performSecureRequest` dispatches (whoami, then profile).  The transport
invokes its callbacks asynchronously, so each `try`/`catch` in the source
guards only the synchronous dispatch: a `DispatchResult.throws` is caught
and routed to `done(e)`, while an exception raised inside a callback
escapes uncaught (`Trace.uncaught`). -/
def userProfile (applicationURL token tokenSecret : String)
    (step1 step2 : DispatchResult) : Trace :=
  let stashWhoAMIResource := applicationURL ++ "/plugins/servlet/applinks/whoami"
  let r1 : Request := { method := "GET", url := stashWhoAMIResource }
  match step1 with
  | DispatchResult.throws e =>
    { requests := [r1], doneCalls := [{ err := some e, profile := none }],
      uncaught := none }
  | DispatchResult.cb (some err) _ =>
    { requests := [r1]
      doneCalls :=
        [{ err := some (JsErr.internalOAuthError "failed to fetch username" err)
           profile := none }]
      uncaught := none }
  | DispatchResult.cb none body =>
    let username := body
    let stashProfileResource :=
      applicationURL ++ "/rest/api/1.0/users/" ++ username
    let r2 : Request := { method := "GET", url := stashProfileResource }
    match step2 with
    | DispatchResult.throws e =>
      { requests := [r1, r2], doneCalls := [{ err := some e, profile := none }],
        uncaught := none }
    | DispatchResult.cb err body2 =>
      { requests := [r1, r2]
        doneCalls := (innerCb token tokenSecret err body2).1
        uncaught := (innerCb token tokenSecret err body2).2 }

/-! ## Concrete sample inputs used by the theorems below -/

/-- The profile-step response body of the spec's success scenario. -/
def sampleProfileBody : String :=
  "\x7b\"name\":\"jdoe\",\"displayName\":\"Jane Doe\",\"slug\":\"jdoe\",\"emailAddress\":\"jane@example.com\"\x7d"

/-- The JSON value `sampleProfileBody` parses to. -/
def sampleJson : JsValue :=
  JsValue.obj
    [("name", JsValue.str "jdoe"), ("displayName", JsValue.str "Jane Doe"),
     ("slug", JsValue.str "jdoe"), ("emailAddress", JsValue.str "jane@example.com")]

/-- The normalized profile the adapter builds from `sampleProfileBody`. -/
def expectedProfile (token tokenSecret : String) : JsObj :=
  [("provider", JsValue.str "atlassian-oauth"),
   ("id", JsValue.str "jdoe"),
   ("username", JsValue.str "jdoe"),
   ("displayName", JsValue.str "Jane Doe"),
   ("avatarUrls", JsValue.str "jdoe"),
   ("emails", JsValue.arr [JsValue.obj [("value", JsValue.str "jane@example.com")]]),
   ("_raw", JsValue.str sampleProfileBody),
   ("_json", sampleJson),
   ("token", JsValue.str token),
   ("tokenSecret", JsValue.str tokenSecret)]

/-- Options with an explicit but empty `requestTokenURL` override. -/
def emptyOverrideOpts : JsObj :=
  [("applicationURL", JsValue.str "http://stash.example.com"),
   ("callbackURL", JsValue.str "http://consumer.example.com/cb"),
   ("requestTokenURL", JsValue.str "")]

/-- Options with an explicit non-empty `requestTokenURL` override. -/
def overrideOpts : JsObj :=
  [("applicationURL", JsValue.str "http://stash.example.com"),
   ("callbackURL", JsValue.str "http://consumer.example.com/cb"),
   ("requestTokenURL", JsValue.str "http://other.example.com/rt")]

/-- Options with an explicit but empty `signatureMethod`. -/
def emptySigOpts : JsObj :=
  [("applicationURL", JsValue.str "http://stash.example.com"),
   ("callbackURL", JsValue.str "http://consumer.example.com/cb"),
   ("signatureMethod", JsValue.str "")]

/-- Options with an explicit non-empty `signatureMethod`. -/
def sigOpts : JsObj :=
  [("applicationURL", JsValue.str "http://stash.example.com"),
   ("callbackURL", JsValue.str "http://consumer.example.com/cb"),
   ("signatureMethod", JsValue.str "PLAINTEXT")]

/-- Plain valid options with an extra `consumerKey` field. -/
def plainOpts : JsObj :=
  [("applicationURL", JsValue.str "http://stash.example.com"),
   ("callbackURL", JsValue.str "http://consumer.example.com/cb"),
   ("consumerKey", JsValue.str "sample-app")]

/-! ## Helper lemmas about property read/write -/

theorem getF_setF_self (o : JsObj) (k : String) (v : JsValue) :
    getF (setF o k v) k = v := by
  induction o with
  | nil => simp [setF, getF]
  | cons head tail ih =>
    obtain ⟨a, b⟩ := head
    by_cases h : a = k
    · subst h
      simp [setF, getF]
    · simp [setF, getF, h, ih]

theorem getF_setF_other (o : JsObj) (k k2 : String) (v : JsValue) (h : k2 ≠ k) :
    getF (setF o k v) k2 = getF o k2 := by
  induction o with
  | nil =>
    simp only [setF, getF]
    rw [if_neg (Ne.symm h)]
  | cons head tail ih =>
    obtain ⟨a, b⟩ := head
    by_cases h2 : a = k
    · subst h2
      simp only [setF, if_pos rfl, getF]
      rw [if_neg (Ne.symm h), if_neg (Ne.symm h)]
    · simp only [setF, if_neg h2, getF]
      by_cases h3 : a = k2
      · simp [h3]
      · simp [h3, ih]

theorem getF_deriveURL_self (o : JsObj) (k suffix : String) :
    getF (deriveURL o k suffix) k =
      (if truthy (getF o k) then getF o k
       else JsValue.str (toJsString (getF o "applicationURL") ++ suffix)) :=
  getF_setF_self o k _

theorem getF_deriveURL_other (o : JsObj) (k suffix k2 : String) (h : k2 ≠ k) :
    getF (deriveURL o k suffix) k2 = getF o k2 :=
  getF_setF_other o k k2 _ h

theorem toJsString_str (s : String) : toJsString (JsValue.str s) = s := rfl

theorem deriveOptions_requestTokenURL (o : JsObj) :
    getF (deriveOptions o) "requestTokenURL" =
      (if truthy (getF o "requestTokenURL") then getF o "requestTokenURL"
       else JsValue.str (toJsString (getF o "applicationURL") ++
         "/plugins/servlet/oauth/request-token")) := by
  simp only [deriveOptions]
  rw [getF_setF_other _ "signatureMethod" "requestTokenURL" _ (by decide),
    getF_deriveURL_other _ "userAuthorizationURL" _ "requestTokenURL" (by decide),
    getF_deriveURL_other _ "accessTokenURL" _ "requestTokenURL" (by decide),
    getF_deriveURL_self]

theorem deriveOptions_accessTokenURL (o : JsObj) :
    getF (deriveOptions o) "accessTokenURL" =
      (if truthy (getF o "accessTokenURL") then getF o "accessTokenURL"
       else JsValue.str (toJsString (getF o "applicationURL") ++
         "/plugins/servlet/oauth/access-token")) := by
  simp only [deriveOptions]
  rw [getF_setF_other _ "signatureMethod" "accessTokenURL" _ (by decide),
    getF_deriveURL_other _ "userAuthorizationURL" _ "accessTokenURL" (by decide),
    getF_deriveURL_self,
    getF_deriveURL_other _ "requestTokenURL" _ "accessTokenURL" (by decide),
    getF_deriveURL_other _ "requestTokenURL" _ "applicationURL" (by decide)]

theorem deriveOptions_userAuthorizationURL (o : JsObj) :
    getF (deriveOptions o) "userAuthorizationURL" =
      (if truthy (getF o "userAuthorizationURL") then getF o "userAuthorizationURL"
       else JsValue.str (toJsString (getF o "applicationURL") ++
         "/plugins/servlet/oauth/authorize")) := by
  simp only [deriveOptions]
  rw [getF_setF_other _ "signatureMethod" "userAuthorizationURL" _ (by decide),
    getF_deriveURL_self,
    getF_deriveURL_other _ "accessTokenURL" _ "userAuthorizationURL" (by decide),
    getF_deriveURL_other _ "accessTokenURL" _ "applicationURL" (by decide),
    getF_deriveURL_other _ "requestTokenURL" _ "userAuthorizationURL" (by decide),
    getF_deriveURL_other _ "requestTokenURL" _ "applicationURL" (by decide)]

theorem deriveOptions_signatureMethod (o : JsObj) :
    getF (deriveOptions o) "signatureMethod" =
      (if truthy (getF o "signatureMethod") then getF o "signatureMethod"
       else JsValue.str "RSA-SHA1") := by
  simp only [deriveOptions]
  rw [getF_setF_self,
    getF_deriveURL_other _ "userAuthorizationURL" _ "signatureMethod" (by decide),
    getF_deriveURL_other _ "accessTokenURL" _ "signatureMethod" (by decide),
    getF_deriveURL_other _ "requestTokenURL" _ "signatureMethod" (by decide)]

theorem deriveOptions_other (o : JsObj) (k : String)
    (h1 : k ≠ "requestTokenURL") (h2 : k ≠ "accessTokenURL")
    (h3 : k ≠ "userAuthorizationURL") (h4 : k ≠ "signatureMethod") :
    getF (deriveOptions o) k = getF o k := by
  simp only [deriveOptions]
  rw [getF_setF_other _ _ _ _ h4, getF_deriveURL_other _ _ _ _ h3,
    getF_deriveURL_other _ _ _ _ h2, getF_deriveURL_other _ _ _ _ h1]

theorem Strategy_ok (o : JsObj) (hat : truthy (getF o "applicationURL") = true)
    (hcb : truthy (getF o "callbackURL") = true) :
    Strategy (some o) = Except.ok
      { options := deriveOptions o
        name := "atlassian-oauth"
        applicationURL := getF (deriveOptions o) "applicationURL" } := by
  simp [Strategy, hat, hcb]

theorem effectiveOption_ok (o : JsObj)
    (hat : truthy (getF o "applicationURL") = true)
    (hcb : truthy (getF o "callbackURL") = true) (k : String) :
    effectiveOption (some o) k = some (getF (deriveOptions o) k) := by
  unfold effectiveOption
  rw [Strategy_ok o hat hcb]

/-! ## Claim theorems -/

/-- C1 (counterexample): in the spec's success scenario the profile that
`done` receives keeps the raw response text and parsed object in fields
named `_raw` and `_json`; it has no field named `rawBody` and no field
named `rawJson`, so reading `profile.rawJson` (hence `profile.rawJson.name`)
yields `undefined`, contradicting the claim as stated. -/
theorem userProfile_rawBody_rawJson_missing :
    (userProfile "https://stash.example.com" "a-token" "a-secret"
        (DispatchResult.cb none "jdoe")
        (DispatchResult.cb none sampleProfileBody)).doneCalls =
      [{ err := none, profile := some (expectedProfile "a-token" "a-secret") }] ∧
    getF (expectedProfile "a-token" "a-secret") "rawBody" = JsValue.undefined ∧
    getF (expectedProfile "a-token" "a-secret") "rawJson" = JsValue.undefined :=
  ⟨rfl, rfl, rfl⟩

/-- C1 (amended): for every token/secret and application URL, when the
whoami step returns body `"jdoe"` and the profile step returns the sample
JSON body, `userProfile` invokes `done(null, profile)` exactly once with
`provider = "atlassian-oauth"`, `id = username = "jdoe"`,
`displayName = "Jane Doe"`, `avatarUrls = "jdoe"` (the slug),
`emails = [{value: "jane@example.com"}]`, the original response text in the
field `_raw`, the parsed object in the field `_json`
(so `profile._json.name = "jdoe"`), plus the supplied token and tokenSecret. -/
theorem userProfile_success_profile (app token tokenSecret : String) :
    userProfile app token tokenSecret (DispatchResult.cb none "jdoe")
        (DispatchResult.cb none sampleProfileBody) =
      { requests :=
          [{ method := "GET", url := app ++ "/plugins/servlet/applinks/whoami" },
           { method := "GET", url := app ++ "/rest/api/1.0/users/" ++ "jdoe" }]
        doneCalls :=
          [{ err := none, profile := some (expectedProfile token tokenSecret) }]
        uncaught := none } :=
  rfl

/-- C2 (code evaluated at the failing input): when the profile-step body is
`"not-json"`, `JSON.parse` throws inside the asynchronous response callback;
the exception escapes uncaught across the asynchronous boundary and `done`
is never invoked — no `ProfileParseError` is delivered through `done`. -/
theorem userProfile_invalid_json_uncaught :
    userProfile "https://stash.example.com" "a-token" "a-secret"
        (DispatchResult.cb none "jdoe") (DispatchResult.cb none "not-json") =
      { requests :=
          [{ method := "GET",
             url := "https://stash.example.com/plugins/servlet/applinks/whoami" },
           { method := "GET",
             url := "https://stash.example.com/rest/api/1.0/users/jdoe" }]
        doneCalls := []
        uncaught := some (JsErr.parseErr "Unexpected token in JSON") } :=
  rfl

/-- C3: whenever the whoami transport reports a failure, `done` is invoked
exactly once, with an `InternalOAuthError` (the spec's `ProfileFetchError`)
wrapping the underlying cause under the message "failed to fetch username",
no profile is passed, and no second request is dispatched. -/
theorem userProfile_whoami_failure (app token tokenSecret : String)
    (e : JsErr) (body : String) (step2 : DispatchResult) :
    userProfile app token tokenSecret (DispatchResult.cb (some e) body) step2 =
      { requests :=
          [{ method := "GET", url := app ++ "/plugins/servlet/applinks/whoami" }]
        doneCalls :=
          [{ err := some (JsErr.internalOAuthError "failed to fetch username" e)
             profile := none }]
        uncaught := none } :=
  rfl

/-- C4 (code evaluated at the failing input): on the parse-failure path
(profile-step body `\x7b`), `done` is invoked zero times — not exactly
once — because the `SyntaxError` escapes uncaught. -/
theorem userProfile_parse_failure_no_done :
    (userProfile "https://stash.example.com" "b-token" "b-secret"
        (DispatchResult.cb none "alice") (DispatchResult.cb none "\x7b")).doneCalls
      = [] ∧
    (userProfile "https://stash.example.com" "b-token" "b-secret"
        (DispatchResult.cb none "alice") (DispatchResult.cb none "\x7b")).uncaught
      = some (JsErr.parseErr "Unexpected token in JSON") :=
  ⟨rfl, rfl⟩

/-- C5: for every options object missing `applicationURL`, and for every
options object missing `callbackURL`, construction fails synchronously with
a `ConfigurationError`, whatever the other options are. -/
theorem Strategy_missing_required_options (o : JsObj) :
    (getF o "applicationURL" = JsValue.undefined →
      ∃ e, Strategy (some o) = Except.error e ∧ isConfigurationError e) ∧
    (getF o "callbackURL" = JsValue.undefined →
      ∃ e, Strategy (some o) = Except.error e ∧ isConfigurationError e) := by
  constructor
  · intro h
    refine ⟨JsErr.error msgMissingApplicationURL, ?_, Or.inl rfl⟩
    simp [Strategy, h, truthy]
  · intro h
    by_cases ha : truthy (getF o "applicationURL") = false
    · exact ⟨JsErr.error msgMissingApplicationURL, by simp [Strategy, ha],
        Or.inl rfl⟩
    · have ha2 : truthy (getF o "applicationURL") = true := by
        cases htv : truthy (getF o "applicationURL") with
        | false => exact absurd htv ha
        | true => rfl
      exact ⟨JsErr.error msgMissingCallbackURL,
        by simp [Strategy, ha2, h, show truthy JsValue.undefined = false from rfl],
        Or.inr rfl⟩

/-- C5 witness: concrete instances of both missing-option cases. -/
theorem Strategy_missing_required_options_witness :
    (∃ e, Strategy (some [("callbackURL",
        JsValue.str "http://consumer.example.com/cb")]) = Except.error e ∧
      isConfigurationError e) ∧
    (∃ e, Strategy (some [("applicationURL",
        JsValue.str "http://stash.example.com")]) = Except.error e ∧
      isConfigurationError e) :=
  ⟨(Strategy_missing_required_options _).1 rfl,
   (Strategy_missing_required_options _).2 rfl⟩

/-- C6 (counterexample): an explicit override can fail to be used verbatim —
with the explicitly supplied override `requestTokenURL = ""` the constructor
still derives `applicationURL ++ "/plugins/servlet/oauth/request-token"`,
which differs from the supplied value. -/
theorem Strategy_empty_override_not_verbatim :
    getF emptyOverrideOpts "requestTokenURL" = JsValue.str "" ∧
    effectiveOption (some emptyOverrideOpts) "requestTokenURL" =
      some (JsValue.str
        "http://stash.example.com/plugins/servlet/oauth/request-token") ∧
    ("" : String) ≠ "http://stash.example.com/plugins/servlet/oauth/request-token" :=
  ⟨rfl, rfl, by decide⟩

/-- C6 (amended): for every successful construction, each of
`requestTokenURL`, `accessTokenURL` and `userAuthorizationURL` equals the
caller-supplied value verbatim when the supplied override is a non-empty
(truthy) string, and equals `applicationURL` concatenated with the fixed
suffix (plain string concatenation, no trailing-slash normalization) when
the override is absent or the empty string. -/
theorem Strategy_endpoint_urls (o : JsObj) (a : String)
    (ha : getF o "applicationURL" = JsValue.str a) (hne : a ≠ "")
    (hcb : truthy (getF o "callbackURL") = true) :
    ((∀ s, s ≠ "" → getF o "requestTokenURL" = JsValue.str s →
        effectiveOption (some o) "requestTokenURL" = some (JsValue.str s)) ∧
     ((getF o "requestTokenURL" = JsValue.undefined ∨
       getF o "requestTokenURL" = JsValue.str "") →
        effectiveOption (some o) "requestTokenURL" =
          some (JsValue.str (a ++ "/plugins/servlet/oauth/request-token")))) ∧
    ((∀ s, s ≠ "" → getF o "accessTokenURL" = JsValue.str s →
        effectiveOption (some o) "accessTokenURL" = some (JsValue.str s)) ∧
     ((getF o "accessTokenURL" = JsValue.undefined ∨
       getF o "accessTokenURL" = JsValue.str "") →
        effectiveOption (some o) "accessTokenURL" =
          some (JsValue.str (a ++ "/plugins/servlet/oauth/access-token")))) ∧
    ((∀ s, s ≠ "" → getF o "userAuthorizationURL" = JsValue.str s →
        effectiveOption (some o) "userAuthorizationURL" = some (JsValue.str s)) ∧
     ((getF o "userAuthorizationURL" = JsValue.undefined ∨
       getF o "userAuthorizationURL" = JsValue.str "") →
        effectiveOption (some o) "userAuthorizationURL" =
          some (JsValue.str (a ++ "/plugins/servlet/oauth/authorize")))) := by
  have hat : truthy (getF o "applicationURL") = true := by
    rw [ha]; simpa [truthy] using hne
  have heff := effectiveOption_ok o hat hcb
  refine ⟨⟨?_, ?_⟩, ⟨?_, ?_⟩, ⟨?_, ?_⟩⟩
  · intro s hs hsup
    rw [heff, deriveOptions_requestTokenURL, hsup,
      if_pos (show truthy (JsValue.str s) = true by simpa [truthy] using hs)]
  · intro hcase
    rw [heff, deriveOptions_requestTokenURL, ha]
    rcases hcase with hu | he
    · rw [hu]; simp [truthy, toJsString_str]
    · rw [he]; simp [truthy, toJsString_str]
  · intro s hs hsup
    rw [heff, deriveOptions_accessTokenURL, hsup,
      if_pos (show truthy (JsValue.str s) = true by simpa [truthy] using hs)]
  · intro hcase
    rw [heff, deriveOptions_accessTokenURL, ha]
    rcases hcase with hu | he
    · rw [hu]; simp [truthy, toJsString_str]
    · rw [he]; simp [truthy, toJsString_str]
  · intro s hs hsup
    rw [heff, deriveOptions_userAuthorizationURL, hsup,
      if_pos (show truthy (JsValue.str s) = true by simpa [truthy] using hs)]
  · intro hcase
    rw [heff, deriveOptions_userAuthorizationURL, ha]
    rcases hcase with hu | he
    · rw [hu]; simp [truthy, toJsString_str]
    · rw [he]; simp [truthy, toJsString_str]

/-- C6 witness: with a non-empty explicit `requestTokenURL` override the
override is kept verbatim, while the unsupplied `accessTokenURL` is derived
from `applicationURL`. -/
theorem Strategy_endpoint_urls_witness :
    effectiveOption (some overrideOpts) "requestTokenURL" =
      some (JsValue.str "http://other.example.com/rt") ∧
    effectiveOption (some overrideOpts) "accessTokenURL" =
      some (JsValue.str
        "http://stash.example.com/plugins/servlet/oauth/access-token") := by
  have h := Strategy_endpoint_urls overrideOpts "http://stash.example.com"
    rfl (by decide) rfl
  exact ⟨h.1.1 "http://other.example.com/rt" (by decide) rfl,
    h.2.1.2 (Or.inl rfl)⟩

/-- C7: whenever the whoami step succeeds with body `username`, the second
dispatched request is a GET whose URL is `applicationURL` concatenated with
`"/rest/api/1.0/users/"` and the whoami body verbatim — no URL encoding —
whatever the second dispatch then does. -/
theorem userProfile_second_request_url (app token tokenSecret username : String)
    (step2 : DispatchResult) :
    (userProfile app token tokenSecret
        (DispatchResult.cb none username) step2).requests =
      [{ method := "GET", url := app ++ "/plugins/servlet/applinks/whoami" },
       { method := "GET", url := app ++ "/rest/api/1.0/users/" ++ username }] := by
  cases step2 <;> rfl

/-- C8 (counterexample): with the explicitly supplied `signatureMethod = ""`
the effective signature method is the default `"RSA-SHA1"`, not the supplied
value. -/
theorem Strategy_empty_signatureMethod_not_verbatim :
    getF emptySigOpts "signatureMethod" = JsValue.str "" ∧
    effectiveOption (some emptySigOpts) "signatureMethod" =
      some (JsValue.str "RSA-SHA1") ∧
    ("" : String) ≠ "RSA-SHA1" :=
  ⟨rfl, rfl, by decide⟩

/-- C8 (amended): for every successful construction, the effective
`signatureMethod` equals the supplied value when it is a non-empty (truthy)
string, and `"RSA-SHA1"` when the option is absent or the empty string. -/
theorem Strategy_signatureMethod_default (o : JsObj)
    (hat : truthy (getF o "applicationURL") = true)
    (hcb : truthy (getF o "callbackURL") = true) :
    (∀ s, s ≠ "" → getF o "signatureMethod" = JsValue.str s →
       effectiveOption (some o) "signatureMethod" = some (JsValue.str s)) ∧
    ((getF o "signatureMethod" = JsValue.undefined ∨
      getF o "signatureMethod" = JsValue.str "") →
       effectiveOption (some o) "signatureMethod" =
         some (JsValue.str "RSA-SHA1")) := by
  have heff := effectiveOption_ok o hat hcb
  constructor
  · intro s hs hsup
    rw [heff, deriveOptions_signatureMethod, hsup,
      if_pos (show truthy (JsValue.str s) = true by simpa [truthy] using hs)]
  · intro hcase
    rw [heff, deriveOptions_signatureMethod]
    rcases hcase with hu | he
    · rw [hu]; simp [truthy]
    · rw [he]; simp [truthy]

/-- C8 witness: a non-empty `signatureMethod` is kept, an absent one
defaults to RSA-SHA1. -/
theorem Strategy_signatureMethod_default_witness :
    effectiveOption (some sigOpts) "signatureMethod" =
      some (JsValue.str "PLAINTEXT") ∧
    effectiveOption (some plainOpts) "signatureMethod" =
      some (JsValue.str "RSA-SHA1") :=
  ⟨(Strategy_signatureMethod_default sigOpts rfl rfl).1 "PLAINTEXT"
      (by decide) rfl,
   (Strategy_signatureMethod_default plainOpts rfl rfl).2 (Or.inl rfl)⟩

/-- C9: a successful construction writes the four derived/defaulted fields
into the caller-supplied options object itself (its post-state is
`StrategyInstance.options`): all four fields are defined afterwards, and
every other property of the caller's object is untouched. -/
theorem Strategy_writes_options (o : JsObj)
    (hat : truthy (getF o "applicationURL") = true)
    (hcb : truthy (getF o "callbackURL") = true) :
    ∃ r, Strategy (some o) = Except.ok r ∧
      getF r.options "requestTokenURL" ≠ JsValue.undefined ∧
      getF r.options "accessTokenURL" ≠ JsValue.undefined ∧
      getF r.options "userAuthorizationURL" ≠ JsValue.undefined ∧
      getF r.options "signatureMethod" ≠ JsValue.undefined ∧
      (∀ k, k ≠ "requestTokenURL" → k ≠ "accessTokenURL" →
        k ≠ "userAuthorizationURL" → k ≠ "signatureMethod" →
        getF r.options k = getF o k) := by
  refine ⟨_, Strategy_ok o hat hcb, ?_, ?_, ?_, ?_, ?_⟩
  · show getF (deriveOptions o) "requestTokenURL" ≠ JsValue.undefined
    rw [deriveOptions_requestTokenURL]
    by_cases htr : truthy (getF o "requestTokenURL") = true
    · rw [if_pos htr]
      intro hu
      rw [hu] at htr
      simp [truthy] at htr
    · rw [if_neg htr]
      simp
  · show getF (deriveOptions o) "accessTokenURL" ≠ JsValue.undefined
    rw [deriveOptions_accessTokenURL]
    by_cases htr : truthy (getF o "accessTokenURL") = true
    · rw [if_pos htr]
      intro hu
      rw [hu] at htr
      simp [truthy] at htr
    · rw [if_neg htr]
      simp
  · show getF (deriveOptions o) "userAuthorizationURL" ≠ JsValue.undefined
    rw [deriveOptions_userAuthorizationURL]
    by_cases htr : truthy (getF o "userAuthorizationURL") = true
    · rw [if_pos htr]
      intro hu
      rw [hu] at htr
      simp [truthy] at htr
    · rw [if_neg htr]
      simp
  · show getF (deriveOptions o) "signatureMethod" ≠ JsValue.undefined
    rw [deriveOptions_signatureMethod]
    by_cases htr : truthy (getF o "signatureMethod") = true
    · rw [if_pos htr]
      intro hu
      rw [hu] at htr
      simp [truthy] at htr
    · rw [if_neg htr]
      simp
  · intro k h1 h2 h3 h4
    show getF (deriveOptions o) k = getF o k
    exact deriveOptions_other o k h1 h2 h3 h4

/-- C9 witness: on concrete valid options the four fields are written and
the unrelated `consumerKey` property is untouched. -/
theorem Strategy_writes_options_witness :
    ∃ r, Strategy (some plainOpts) = Except.ok r ∧
      getF r.options "signatureMethod" ≠ JsValue.undefined ∧
      getF r.options "consumerKey" = JsValue.str "sample-app" := by
  obtain ⟨r, hok, h1, h2, h3, h4, hframe⟩ :=
    Strategy_writes_options plainOpts rfl rfl
  refine ⟨r, hok, h4, ?_⟩
  rw [hframe "consumerKey" (by decide) (by decide) (by decide) (by decide)]
  rfl

/-- C10: constructing with `null`/`undefined` options does not fault on a
missing-object dereference — `options = options || \x7b\x7d` substitutes an
empty object — and fails with the same `ConfigurationError` as an empty
options object. -/
theorem Strategy_null_options :
    Strategy none = Except.error (JsErr.error msgMissingApplicationURL) ∧
    Strategy (some []) = Except.error (JsErr.error msgMissingApplicationURL) :=
  ⟨rfl, rfl⟩
